import Mathlib

/-!
Verification of the SUT discovery / fleet-management service:
device registry, delete endpoint, websocket registration protocol,
SSH trust subsystem and SSE notification fan-out.

Python dictionaries are embedded as association lists with
insert-replaces-key semantics; strings are Lean `String`s, except in the
`authorized_keys` model where file content is a `List Char` so that the
line/token structure can be reasoned about directly.
-/

namespace RPX

/-- Lookup in an association list keyed by `String` (embedding of Python
`dict[key]` access / `dict.get`). -/
def alookup {β : Type} (l : List (String × β)) (k : String) : Option β :=
  match l with
  | [] => none
  | p :: rest => if p.1 = k then some p.2 else alookup rest k

/-- Remove every binding of key `k` (embedding of Python `del d[k]`). -/
def aerase {β : Type} (l : List (String × β)) (k : String) : List (String × β) :=
  l.filter (fun p => decide (p.1 ≠ k))

/-- Insert/overwrite the binding of key `k` (embedding of `d[k] = v`). -/
def ainsert {β : Type} (l : List (String × β)) (k : String) (v : β) :
    List (String × β) :=
  (k, v) :: aerase l k

/-! ## Data model -/

/-- `DeviceRecord` — one per physical SUT, keyed by its immutable
device-assigned `unique_id` (spec §3; fields as read by the endpoints in
`api/suts.py`).  Timestamps are abstract `Nat` instants. -/
structure DeviceRecord where
  unique_id : String
  ip : String
  port : Nat
  hostname : String
  cpu_model : Option String
  display_name : Option String
  capabilities : List String
  is_online : Bool
  last_seen : Nat
  is_paired : Bool
  paired_by : Option String
  paired_at : Option Nat
  session_id : Nat
  last_ip_change : Option Nat
  binding_history : List (String × Nat)
  ssh_public_key : Option String
  ssh_fingerprint : Option String
  master_key_installed : Bool
  master_key_installed_at : Option Nat
deriving DecidableEq, Repr

/-- Registry state: the primary `unique_id → DeviceRecord` map, the
secondary `ip → unique_id` index, and the durable paired-device set
(`registry.devices`, `registry.ip_to_id_mapping`, and the persisted
paired list). -/
structure Registry where
  devices : List (String × DeviceRecord)
  ip_to_id_mapping : List (String × String)
  saved_paired : List String
deriving DecidableEq, Repr

def Registry.empty : Registry := ⟨[], [], []⟩

/-- Modelled from the spec: `getDeviceById` — read path via the primary
index (registry implementation is outside `src/`; spec §4.2). -/
def Registry.get_device_by_id (reg : Registry) (unique_id : String) :
    Option DeviceRecord :=
  alookup reg.devices unique_id

/-- ids of currently paired devices, in map order (used to model the
wholesale rewrite of the durable paired-device list, spec §4.2/§5). -/
def pairedIds (devices : List (String × DeviceRecord)) : List String :=
  (devices.filter (fun p => p.2.is_paired)).map (fun p => p.1)

def mergeOpt (incoming old : Option String) : Option String :=
  match incoming with
  | some v => some v
  | none => old

/-- Modelled from the spec: `registerDevice` upsert (spec §4.2; the
registry implementation is outside `src/`).  Always-present parameters
(`ip`, `port`, `capabilities`, `hostname`) overwrite; optional ones merge
(absent fields preserved).  If the incoming ip differs from the stored ip,
a `binding_history` entry is appended, `last_ip_change` is set and the
secondary index is repaired (the stale reverse mapping for the old IP is
removed and the new IP is pointed at this `unique_id`).  `fresh_session`
carries the session id assigned by the connection manager on a new
transport admission (`none` on a heartbeat re-registration).  Returns the
post-upsert record, as the source's `registry.register_device` does. -/
def Registry.register_device (reg : Registry) (now : Nat) (ip : String) (port : Nat)
    (unique_id : String) (capabilities : List String) (hostname : String)
    (cpu_model display_name ssh_public_key ssh_fingerprint : Option String)
    (fresh_session : Option Nat) : Registry × DeviceRecord :=
  match alookup reg.devices unique_id with
  | none =>
    let r : DeviceRecord :=
      { unique_id := unique_id, ip := ip, port := port, hostname := hostname
        cpu_model := cpu_model, display_name := display_name
        capabilities := capabilities, is_online := true, last_seen := now
        is_paired := false, paired_by := none, paired_at := none
        session_id := fresh_session.getD 0, last_ip_change := none
        binding_history := [], ssh_public_key := ssh_public_key
        ssh_fingerprint := ssh_fingerprint, master_key_installed := false
        master_key_installed_at := none }
    ({ reg with devices := ainsert reg.devices unique_id r
                ip_to_id_mapping := ainsert reg.ip_to_id_mapping ip unique_id },
     r)
  | some old =>
    let ipChanged : Bool := old.ip ≠ ip
    let r : DeviceRecord :=
      { old with
        ip := ip, port := port, hostname := hostname
        capabilities := capabilities
        cpu_model := mergeOpt cpu_model old.cpu_model
        display_name := mergeOpt display_name old.display_name
        ssh_public_key := mergeOpt ssh_public_key old.ssh_public_key
        ssh_fingerprint := mergeOpt ssh_fingerprint old.ssh_fingerprint
        is_online := true, last_seen := now
        session_id := fresh_session.getD old.session_id
        last_ip_change := if ipChanged then some now else old.last_ip_change
        binding_history :=
          if ipChanged then old.binding_history ++ [(ip, now)]
          else old.binding_history }
    let index :=
      if ipChanged then
        let cleaned :=
          if alookup reg.ip_to_id_mapping old.ip = some unique_id then
            aerase reg.ip_to_id_mapping old.ip
          else reg.ip_to_id_mapping
        ainsert cleaned ip unique_id
      else reg.ip_to_id_mapping
    ({ reg with devices := ainsert reg.devices unique_id r
                ip_to_id_mapping := index },
     r)

/-- Modelled from the spec: `markDeviceOffline` sets the derived online
state false, alters nothing else, deletes nothing; a no-op on an unknown
id (spec §4.2, registry implementation outside `src/`). -/
def Registry.mark_device_offline (reg : Registry) (unique_id : String) : Registry :=
  match alookup reg.devices unique_id with
  | none => reg
  | some d =>
    { reg with devices := ainsert reg.devices unique_id { d with is_online := false } }

/-- Modelled from the spec: `updateMasterKeyStatus` — the only writer of
`master_key_installed`; records a timestamp on installation (spec §4.2,
registry implementation outside `src/`). -/
def Registry.update_master_key_status (reg : Registry) (unique_id : String)
    (installed : Bool) (now : Nat) : Registry :=
  match alookup reg.devices unique_id with
  | none => reg
  | some d =>
    let d' : DeviceRecord :=
      { d with
        master_key_installed := installed
        master_key_installed_at := if installed then some now else none }
    { reg with devices := ainsert reg.devices unique_id d' }

/-! ## Administrative delete (`delete_sut`, api/suts.py) -/

/-- Outcome of the delete endpoint: 404, 400 (paired without force), or
success reporting whether the deleted device was paired. -/
inductive DeleteOutcome
  | notFound
  | conflict
  | ok (was_paired : Bool)
deriving DecidableEq, Repr

/-- Embedding of `delete_sut` (api/suts.py): 404 on unknown id; 400 if the
device is paired and `force` is not set; otherwise deletes the index entry
at the device's stored ip when present, deletes the primary record, and —
if the device was paired — rewrites the durable paired list from the
post-delete map (`registry.save_paired_devices`, modelled from the spec as
a wholesale rewrite of the paired-id set). -/
def delete_sut (reg : Registry) (unique_id : String) (force : Bool) :
    DeleteOutcome × Registry :=
  match Registry.get_device_by_id reg unique_id with
  | none => (DeleteOutcome.notFound, reg)
  | some device =>
    if device.is_paired && !force then (DeleteOutcome.conflict, reg)
    else
      let index :=
        if (alookup reg.ip_to_id_mapping device.ip).isSome then
          aerase reg.ip_to_id_mapping device.ip
        else reg.ip_to_id_mapping
      let devices' := aerase reg.devices unique_id
      let saved' :=
        if device.is_paired then pairedIds devices' else reg.saved_paired
      (DeleteOutcome.ok device.is_paired,
       { devices := devices', ip_to_id_mapping := index, saved_paired := saved' })

/-! ## SSH key exchange endpoint (`trigger_ssh_exchange`, api/suts.py) -/

/-- Wire messages the Master sends to a device over its session. -/
inductive WireMessage
  | heartbeatAck
  | masterKeyInstalledAck (success : Bool) (error : Option String)
  | installMasterKey (master_public_key : String)
      (master_fingerprint : Option String) (force : Bool)
deriving DecidableEq, Repr

/-- HTTP-level outcome of the exchange endpoint. -/
inductive ExchangeOutcome
  | notFound
  | offline
  | alreadyInstalled
  | keyUnavailable
  | sendFailed
  | sent (master_fingerprint : Option String) (force : Bool)
deriving DecidableEq, Repr

/-- Embedding of `trigger_ssh_exchange` (api/suts.py).  `master_public_key`
and `master_fingerprint` are the results of
`master_key_mgr.get_public_key()` / `get_fingerprint()` (filesystem reads,
passed in as values); `sendOk` is the result of
`ws_manager.send_to_device` (false = not delivered).  The returned list
holds the `install_master_key` messages actually delivered over the
device's session; the registry is returned as the endpoint leaves it (the
source performs no registry write). -/
def trigger_ssh_exchange (reg : Registry) (unique_id : String) (force : Bool)
    (master_public_key master_fingerprint : Option String) (sendOk : Bool) :
    ExchangeOutcome × List WireMessage × Registry :=
  match Registry.get_device_by_id reg unique_id with
  | none => (ExchangeOutcome.notFound, [], reg)
  | some device =>
    if !device.is_online then (ExchangeOutcome.offline, [], reg)
    else if device.master_key_installed && !force then
      (ExchangeOutcome.alreadyInstalled, [], reg)
    else
      match master_public_key with
      | none => (ExchangeOutcome.keyUnavailable, [], reg)
      | some k =>
        if sendOk then
          (ExchangeOutcome.sent master_fingerprint force,
           [WireMessage.installMasterKey k master_fingerprint force], reg)
        else (ExchangeOutcome.sendFailed, [], reg)

/-! ## WebSocket registration and message loop (`websocket_sut_endpoint`) -/

/-- The initial registration payload (spec §6): every field the handler
reads via `init_data.get(...)` is optional, with the handler's defaults
applied at the call sites. -/
structure InitPayload where
  ip : Option String
  port : Option Nat
  capabilities : Option (List String)
  hostname : Option String
  cpu_model : Option String
  display_name : Option String
  ssh_public_key : Option String
  ssh_key_fingerprint : Option String
deriving DecidableEq, Repr

/-- The `register_ack` message sent back after a successful registration. -/
structure RegisterAck where
  message : String
  sut_id : String
  ssh_registered : Bool
  master_public_key : Option String
  master_fingerprint : Option String
  re_exchange : Bool
  session_id : Nat
deriving DecidableEq, Repr

/-- Outcome of the master-key retrieval `try` block in the registration
handler (api/suts.py).  `completed pub fp`: the block ran to completion,
with the `get_public_key()` / `get_fingerprint()` results (`none` = an
internal failure those functions caught themselves, returning `None`).
`raised pub`: the block raised into the handler's `except` — reachable
through `get_master_key_manager()` itself (`Path.home()` failure, import
failure) or an error propagating out of `ensure_key_exists`'s unguarded
`Path.exists()` / `gethostname()` calls before `get_fingerprint` was
assigned — so the fingerprint keeps its initial `None`, `pub` keeps
whatever had been assigned before the raise, and `re_exchange_needed`
keeps its initial `False`; the acknowledgment is still sent. -/
inductive MasterKeyFetch
  | completed (pub fp : Option String)
  | raised (pub : Option String)
deriving DecidableEq, Repr

/-- Embedding of the registration phase of `websocket_sut_endpoint`
(api/suts.py).  `init = none` models a malformed initial payload
(`receive_json` raising): the handler's exception path runs the `finally`
block (`ws_manager.disconnect` and `registry.mark_device_offline`) and no
acknowledgment is sent.  For a well-formed payload, the device is
registered with the handler's defaults (`ip` → "unknown", `port` → 8080,
`capabilities` → [], `hostname` → ""), the key store add outcome is
`addKeyOk` (key_store.add_key, attempted only when a key was offered),
`fresh_session` is the session id assigned by `ws_manager.connect`, and
`fetch` is the outcome of the master-key retrieval `try` block:
`re_exchange_needed` is recomputed from the record only when that block
ran to completion, and stays `False` when it raised into the handler's
`except` — the acknowledgment is sent either way. -/
def websocketRegister (reg : Registry) (sut_id : String) (init : Option InitPayload)
    (now : Nat) (fresh_session : Nat) (addKeyOk : Bool)
    (fetch : MasterKeyFetch) : Registry × Option RegisterAck :=
  match init with
  | none => (Registry.mark_device_offline reg sut_id, none)
  | some d =>
    let ssh_registered := d.ssh_public_key.isSome && addKeyOk
    let (reg1, device) :=
      Registry.register_device reg now (d.ip.getD "unknown") (d.port.getD 8080)
        sut_id (d.capabilities.getD []) (d.hostname.getD "")
        d.cpu_model d.display_name d.ssh_public_key d.ssh_key_fingerprint
        (some fresh_session)
    let (master_public_key, master_fingerprint, re_exchange_needed) :=
      match fetch with
      | MasterKeyFetch.completed pub fp => (pub, fp, !device.master_key_installed)
      | MasterKeyFetch.raised pub => (pub, none, false)
    (reg1,
     some { message := "registered successfully", sut_id := sut_id
            ssh_registered := ssh_registered
            master_public_key := master_public_key
            master_fingerprint := master_fingerprint
            re_exchange := re_exchange_needed
            session_id := device.session_id })

/-- Messages a device may send over its established session.  The `extra`
fields model any payload content beyond what the handler reads. -/
inductive SutMessage
  | heartbeat (extra : List (String × String))
  | statusUpdate (extra : List (String × String))
  | masterKeyInstalled (success : Bool) (error : Option String)
  | other (tag : String)
deriving DecidableEq, Repr

/-- Embedding of the message loop of `websocket_sut_endpoint`
(api/suts.py).  A heartbeat re-registers the device using the original
`init_data` values (not the heartbeat payload) and replies with
`heartbeat_ack`; `status_update` and unknown types are ignored;
`master_key_installed` with `success` updates the trust state via
`registry.update_master_key_status` and acks success, otherwise leaves the
registry untouched and acks failure with the reported error (defaulted to
"Unknown error"). -/
def handleSutMessage (reg : Registry) (sut_id : String) (init : InitPayload)
    (now : Nat) (msg : SutMessage) : Registry × List WireMessage :=
  match msg with
  | SutMessage.heartbeat _ =>
    let (reg', _) :=
      Registry.register_device reg now (init.ip.getD "unknown") (init.port.getD 8080)
        sut_id (init.capabilities.getD []) (init.hostname.getD "")
        none none none none none
    (reg', [WireMessage.heartbeatAck])
  | SutMessage.statusUpdate _ => (reg, [])
  | SutMessage.masterKeyInstalled success error =>
    if success then
      (Registry.update_master_key_status reg sut_id true now,
       [WireMessage.masterKeyInstalledAck true none])
    else
      (reg, [WireMessage.masterKeyInstalledAck false (some (error.getD "Unknown error"))])
  | SutMessage.other _ => (reg, [])

/-! ## SSE notification fan-out (`broadcast_sse_event`, api/suts.py) -/

/-- Result of one broadcast: the observers whose enqueue succeeded (the
event was placed on their queue) and the surviving observer set. -/
structure BroadcastResult where
  delivered : List Nat
  clients : List Nat
deriving DecidableEq, Repr

/-- Embedding of `broadcast_sse_event` (api/suts.py).  Observer queues are
identified by `Nat`; `enqOk q` is the outcome of the non-blocking
`queue.put_nowait` on queue `q` (false = the enqueue raised).  The loop
attempts every queue, collects the failed ones in `dead`, and afterwards
discards each dead queue from the client set. -/
def broadcast_sse_event (clients : List Nat) (enqOk : Nat → Bool) :
    BroadcastResult :=
  let dead := clients.filter (fun q => !enqOk q)
  { delivered := clients.filter (fun q => enqOk q)
    clients := clients.filter (fun q => !dead.contains q) }

/-! ## Master key manager (`ensure_key_exists`, ssh/master_key_manager.py) -/

/-- The key files at the fixed location (`~/.ssh/master_ed25519{,.pub}`):
`none` = absent.  Key material is abstract. -/
structure MasterKeyFS where
  priv_key : Option String
  pub_key : Option String
deriving DecidableEq, Repr

/-- Outcome of running `ssh-keygen` (subprocess): on success both files are
written; otherwise an error message (non-zero exit, missing binary,
timeout, …). -/
inductive GenOutcome
  | ok (priv pub : String)
  | fail (msg : String)
deriving DecidableEq, Repr

/-- Embedding of `MasterKeyManager.ensure_key_exists`
(ssh/master_key_manager.py).  If both key files exist it returns success
immediately, touching nothing.  Otherwise it creates the `.ssh` directory
(`mkdirOk` = whether that succeeds) and runs `ssh-keygen` (outcome
`gen`). -/
def ensure_key_exists (fs : MasterKeyFS) (mkdirOk : Bool) (gen : GenOutcome) :
    (Bool × String) × MasterKeyFS :=
  if fs.priv_key.isSome && fs.pub_key.isSome then
    ((true, "Key already exists"), fs)
  else if !mkdirOk then
    ((false, "Failed to create .ssh directory"), fs)
  else
    match gen with
    | GenOutcome.ok p q =>
      ((true, "Generated new key"), { priv_key := some p, pub_key := some q })
    | GenOutcome.fail m => ((false, m), fs)

/-! ## Device-side authorized_keys store (`SSHSetup.add_authorized_key`) -/

/-- Python `str.isspace` characters relevant here (ASCII whitespace). -/
def isWs (c : Char) : Bool := c = ' ' || c = '\t' || c = '\n' || c = '\r'

/-- `str.strip()`: drop whitespace from both ends. -/
def stripChars (l : List Char) : List Char :=
  ((l.dropWhile isWs).reverse.dropWhile isWs).reverse

/-- Worker for `str.split()`: `acc` holds the current token reversed;
tokens are emitted at whitespace boundaries and at the end. -/
def splitWsAux : List Char → List Char → List (List Char)
  | [], acc => if acc = [] then [] else [acc.reverse]
  | c :: rest, acc =>
    if isWs c then
      if acc = [] then splitWsAux rest []
      else acc.reverse :: splitWsAux rest []
    else splitWsAux rest (c :: acc)

/-- `str.split()` with no argument: maximal runs of non-whitespace. -/
def splitWs (l : List Char) : List (List Char) := splitWsAux l []

/-- Python substring test `needle in hay`. -/
def containsSub (needle hay : List Char) : Bool := decide (needle <:+: hay)

/-- Split file content into lines at newline characters (the line
structure of the `authorized_keys` file; a trailing newline yields a final
empty line). -/
def splitLines : List Char → List (List Char)
  | [] => [[]]
  | c :: rest =>
    if c = '\n' then [] :: splitLines rest
    else
      match splitLines rest with
      | h :: t => (c :: h) :: t
      | [] => [[c]]

/-- The key-data portion compared by the dedup check: the second
whitespace-separated field when present, the whole key otherwise
(`parts = public_key.split(); key_data = parts[1] if len(parts) >= 2 else
public_key`). -/
def keyData (key : List Char) : List Char :=
  match splitWs key with
  | _ :: d :: _ => d
  | _ => key

/-- The `authorized_keys` file: `none` = file absent. -/
structure AuthKeysFile where
  content : Option (List Char)
deriving DecidableEq, Repr

/-- Embedding of `SSHSetup.add_authorized_key` (sut_client/ssh_setup.py).
Rejects empty/whitespace-only input; strips; rejects keys without an
`ssh-`/`ecdsa-` prefix; if the file exists and already contains the key's
data portion as a substring, succeeds without writing; otherwise appends
the key on its own line (inserting a separating newline when the existing
content does not end with one; opening in append mode creates a missing
file, so the absent-file case appends to empty content). -/
def add_authorized_key (fs : AuthKeysFile) (public_key : List Char) :
    (Bool × String) × AuthKeysFile :=
  if stripChars public_key = [] then ((false, "Empty public key"), fs)
  else
    let key := stripChars public_key
    if !("ssh-".toList.isPrefixOf key || "ecdsa-".toList.isPrefixOf key) then
      ((false, "Invalid public key format"), fs)
    else
      let alreadyThere :=
        match fs.content with
        | some existing => containsSub (keyData key) existing
        | none => false
      if alreadyThere then ((true, "Key already registered"), fs)
      else
        let existing := fs.content.getD []
        let pad : List Char :=
          if existing ≠ [] ∧ existing.getLast? ≠ some '\n' then ['\n'] else []
        ((true, "Key added successfully"),
         { content := some (existing ++ pad ++ key ++ ['\n']) })

/-! ## Derived state predicates and concrete states -/

/-- Forward consistency of the secondary index: every `ip → unique_id`
entry points at a record present in the primary map whose stored ip is
that entry's ip (spec §3). -/
def indexConsistentB (reg : Registry) : Bool :=
  reg.ip_to_id_mapping.all (fun p =>
    match alookup reg.devices p.2 with
    | some d => d.ip == p.1
    | none => false)

/-- Number of `authorized_keys` lines containing `d` as a substring (the
stored entries for one piece of key data). -/
def countMatching (d content : List Char) : Nat :=
  (splitLines content).countP (fun l => containsSub d l)

/-- A device record with the given identity and flags, other fields at
registration defaults (for concrete test states). -/
def mkDevice (uid ip : String) (online paired installed : Bool) : DeviceRecord :=
  { unique_id := uid, ip := ip, port := 8080, hostname := "h"
    cpu_model := none, display_name := none, capabilities := []
    is_online := online, last_seen := 0, is_paired := paired
    paired_by := none, paired_at := none, session_id := 1
    last_ip_change := none, binding_history := []
    ssh_public_key := none, ssh_fingerprint := none
    master_key_installed := installed, master_key_installed_at := none }

/-- Device `A` registered at `10.0.0.5`. -/
def regA : Registry :=
  (Registry.register_device Registry.empty 1 "10.0.0.5" 8080 "A" [] "hostA"
    none none none none (some 1)).1

/-- `10.0.0.5` then reassigned: device `B` registers at the same address,
taking over the index entry while `A`'s record still stores that ip. -/
def regAB : Registry :=
  (Registry.register_device regA 2 "10.0.0.5" 8080 "B" [] "hostB"
    none none none none (some 1)).1

/-- A registration payload with no `ip` field. -/
def payloadNoIp : InitPayload :=
  { ip := none, port := some 9, capabilities := none, hostname := none
    cpu_model := none, display_name := none, ssh_public_key := none
    ssh_key_fingerprint := none }

/-- The record of device `A` as it stands in `regA`/`regAB`. -/
def deviceA : DeviceRecord :=
  (Registry.register_device Registry.empty 1 "10.0.0.5" 8080 "A" [] "hostA"
    none none none none (some 1)).2

/-! ## Association-list lemmas -/

theorem alookup_ainsert_self {β : Type} (l : List (String × β)) (k : String) (v : β) :
    alookup (ainsert l k v) k = some v := by
  simp [ainsert, alookup]

theorem alookup_aerase_self {β : Type} (l : List (String × β)) (k : String) :
    alookup (aerase l k) k = none := by
  induction l with
  | nil => simp [aerase, alookup]
  | cons p rest ih =>
    by_cases h : p.1 = k
    · simpa [aerase, alookup, h] using ih
    · simpa [aerase, alookup, h] using ih

theorem alookup_aerase_ne {β : Type} (l : List (String × β)) (k k' : String)
    (h : k' ≠ k) : alookup (aerase l k) k' = alookup l k' := by
  induction l with
  | nil => rfl
  | cons p rest ih =>
    by_cases hp : p.1 = k
    · have hp' : p.1 ≠ k' := by
        intro hc; exact h (hc ▸ hp)
      rw [show aerase (p :: rest) k = aerase rest k by simp [aerase, hp]]
      rw [show alookup (p :: rest) k' = alookup rest k' by simp [alookup, hp']]
      exact ih
    · rw [show aerase (p :: rest) k = p :: aerase rest k by simp [aerase, hp]]
      by_cases hq : p.1 = k'
      · simp [alookup, hq]
      · simp only [alookup, hq, if_neg hq]
        exact ih

theorem alookup_ainsert_ne {β : Type} (l : List (String × β)) (k k' : String) (v : β)
    (h : k' ≠ k) : alookup (ainsert l k v) k' = alookup l k' := by
  have hk : k ≠ k' := fun hc => h hc.symm
  rw [show alookup (ainsert l k v) k' = alookup (aerase l k) k' by
    simp [ainsert, alookup, hk]]
  exact alookup_aerase_ne l k k' h

theorem alookup_mem {β : Type} {l : List (String × β)} {k : String} {v : β}
    (h : alookup l k = some v) : (k, v) ∈ l := by
  induction l with
  | nil => simp [alookup] at h
  | cons p rest ih =>
    by_cases hp : p.1 = k
    · simp [alookup, hp] at h
      have : p = (k, v) := by
        cases p
        simp_all
      exact this ▸ List.mem_cons_self _ _
    · simp [alookup, hp] at h
      exact List.mem_cons_of_mem _ (ih h)

theorem alookup_isSome_of_mem {β : Type} {l : List (String × β)} {k : String} {v : β}
    (h : (k, v) ∈ l) : (alookup l k).isSome = true := by
  induction l with
  | nil => simp at h
  | cons p rest ih =>
    rcases List.mem_cons.mp h with h | h
    · simp [alookup, ← h]
    · by_cases hp : p.1 = k
      · simp [alookup, hp]
      · simpa [alookup, hp] using ih h

/-! ## Claim C1: forced key re-exchange gated on liveness -/

/-- C1: a forced (`force=true`) SSH key re-exchange for an offline device
fails with the Conflict/NotFound-class error (HTTP 400 "offline") and no
`install_master_key` message is delivered, whatever the key state or the
transport would have done; for the same device online (Master key
available, delivery succeeding) exactly one `install_master_key` message
is delivered over its session, and the registry — in particular
`master_key_installed` — is left unchanged, so the flag can only change
when the device's later acknowledgment is processed. -/
theorem c1_force_exchange_liveness_gate
    (reg : Registry) (unique_id : String) (d : DeviceRecord)
    (hd : Registry.get_device_by_id reg unique_id = some d)
    (mfp : Option String) (k : String) :
    (d.is_online = false →
      ∀ mpk sendOk, trigger_ssh_exchange reg unique_id true mpk mfp sendOk =
        (ExchangeOutcome.offline, [], reg)) ∧
    (d.is_online = true →
      trigger_ssh_exchange reg unique_id true (some k) mfp true =
        (ExchangeOutcome.sent mfp true,
         [WireMessage.installMasterKey k mfp true], reg)) := by
  constructor
  · intro hoff mpk sendOk
    simp [trigger_ssh_exchange, hd, hoff]
  · intro hon
    simp [trigger_ssh_exchange, hd, hon]

/-- C1 witness: a concrete offline device is refused with no message, and
the same device online gets exactly one `install_master_key`. -/
theorem c1_force_exchange_liveness_gate_witness :
    (trigger_ssh_exchange ⟨[("A", mkDevice "A" "10.0.0.5" false false false)], [("10.0.0.5", "A")], []⟩
        "A" true (some "PUB") (some "FP") true =
      (ExchangeOutcome.offline, [], ⟨[("A", mkDevice "A" "10.0.0.5" false false false)], [("10.0.0.5", "A")], []⟩)) ∧
    (trigger_ssh_exchange ⟨[("A", mkDevice "A" "10.0.0.5" true false false)], [("10.0.0.5", "A")], []⟩
        "A" true (some "PUB") (some "FP") true =
      (ExchangeOutcome.sent (some "FP") true,
       [WireMessage.installMasterKey "PUB" (some "FP") true],
       ⟨[("A", mkDevice "A" "10.0.0.5" true false false)], [("10.0.0.5", "A")], []⟩)) :=
  ⟨(c1_force_exchange_liveness_gate
      ⟨[("A", mkDevice "A" "10.0.0.5" false false false)], [("10.0.0.5", "A")], []⟩
      "A" (mkDevice "A" "10.0.0.5" false false false) (by decide) (some "FP") "PUB").1
      (by decide) (some "PUB") true,
   (c1_force_exchange_liveness_gate
      ⟨[("A", mkDevice "A" "10.0.0.5" true false false)], [("10.0.0.5", "A")], []⟩
      "A" (mkDevice "A" "10.0.0.5" true false false) (by decide) (some "FP") "PUB").2
      (by decide)⟩

/-! ## Claim C3: `register_ack` carries `re_exchange` ↔ key not installed -/

/-- C3 counterexample: when the master-key retrieval `try` block raises
into the handler's `except` (a retrieval failure), the registration still
succeeds and the ack is sent, but `re_exchange_needed` keeps its initial
`False` even though the freshly created record has
`master_key_installed = false` — refuting the claimed iff "including when
retrieval of the Master's public key fails". -/
theorem c3_raised_fetch_counterexample :
    (websocketRegister Registry.empty "sut1" (some payloadNoIp) 5 1 false
        (MasterKeyFetch.raised none)).2
      = some { message := "registered successfully", sut_id := "sut1"
               ssh_registered := false, master_public_key := none
               master_fingerprint := none, re_exchange := false
               session_id := 1 } ∧
    (Registry.get_device_by_id
        (websocketRegister Registry.empty "sut1" (some payloadNoIp) 5 1 false
          (MasterKeyFetch.raised none)).1 "sut1").map
        DeviceRecord.master_key_installed
      = some false := by
  refine ⟨?_, ?_⟩ <;> rfl

/-- C3 amended: when the master-key retrieval `try` block runs to
completion, the `register_ack` carries `re_exchange` equal to the negation
of the post-upsert record's `master_key_installed` — including when
`get_public_key()` returned `None` (retrieval failed without raising,
those reads swallowing their own errors); when the block raises into the
handler's `except`, the ack is still sent but with `re_exchange = false`
and no fingerprint, regardless of the record's trust state. -/
theorem c3_register_ack_re_exchange_amended
    (reg : Registry) (sut_id : String) (d : InitPayload) (now fresh_session : Nat)
    (addKeyOk : Bool) (pub fp : Option String) :
    (∃ r, Registry.get_device_by_id
        (websocketRegister reg sut_id (some d) now fresh_session addKeyOk
          (MasterKeyFetch.completed pub fp)).1 sut_id = some r ∧
      (websocketRegister reg sut_id (some d) now fresh_session addKeyOk
          (MasterKeyFetch.completed pub fp)).2
        = some { message := "registered successfully", sut_id := sut_id
                 ssh_registered := d.ssh_public_key.isSome && addKeyOk
                 master_public_key := pub, master_fingerprint := fp
                 re_exchange := !r.master_key_installed
                 session_id := r.session_id }) ∧
    (∃ r, Registry.get_device_by_id
        (websocketRegister reg sut_id (some d) now fresh_session addKeyOk
          (MasterKeyFetch.raised pub)).1 sut_id = some r ∧
      (websocketRegister reg sut_id (some d) now fresh_session addKeyOk
          (MasterKeyFetch.raised pub)).2
        = some { message := "registered successfully", sut_id := sut_id
                 ssh_registered := d.ssh_public_key.isSome && addKeyOk
                 master_public_key := pub, master_fingerprint := none
                 re_exchange := false
                 session_id := r.session_id }) := by
  constructor
  · unfold websocketRegister Registry.register_device
    cases hl : alookup reg.devices sut_id with
    | none =>
      refine ⟨_, ?_, rfl⟩
      simp only [Registry.get_device_by_id, hl]
      exact alookup_ainsert_self _ _ _
    | some old =>
      refine ⟨_, ?_, rfl⟩
      simp only [Registry.get_device_by_id, hl]
      exact alookup_ainsert_self _ _ _
  · unfold websocketRegister Registry.register_device
    cases hl : alookup reg.devices sut_id with
    | none =>
      refine ⟨_, ?_, rfl⟩
      simp only [Registry.get_device_by_id, hl]
      exact alookup_ainsert_self _ _ _
    | some old =>
      refine ⟨_, ?_, rfl⟩
      simp only [Registry.get_device_by_id, hl]
      exact alookup_ainsert_self _ _ _

/-! ## Claim C5: `master_key_installed` transitions only on success ack -/

/-- C5: a `master_key_installed` report with `success:false` leaves the
registry (hence the record's trust state) unchanged and is answered with a
failure acknowledgment carrying the reported error; `success:true` sets
`master_key_installed` with a timestamp and is answered with a success
acknowledgment; and across every message the loop handles, a record's
`master_key_installed` can go false→true only on a
`master_key_installed` message with `success:true`. -/
theorem c5_master_key_installed_transition
    (reg : Registry) (sut_id : String) (init : InitPayload) (now : Nat)
    (d : DeviceRecord) (hd : Registry.get_device_by_id reg sut_id = some d) :
    (∀ err, handleSutMessage reg sut_id init now (SutMessage.masterKeyInstalled false err) =
      (reg, [WireMessage.masterKeyInstalledAck false (some (err.getD "Unknown error"))])) ∧
    (∀ err,
      Registry.get_device_by_id
          (handleSutMessage reg sut_id init now (SutMessage.masterKeyInstalled true err)).1 sut_id
        = some { d with master_key_installed := true, master_key_installed_at := some now } ∧
      (handleSutMessage reg sut_id init now (SutMessage.masterKeyInstalled true err)).2
        = [WireMessage.masterKeyInstalledAck true none]) ∧
    (∀ msg d', d.master_key_installed = false →
      Registry.get_device_by_id (handleSutMessage reg sut_id init now msg).1 sut_id = some d' →
      d'.master_key_installed = true →
      ∃ err, msg = SutMessage.masterKeyInstalled true err) := by
  refine ⟨?_, ?_, ?_⟩
  · intro err
    simp [handleSutMessage]
  · intro err
    constructor
    · simp only [handleSutMessage, if_pos rfl]
      simp only [Registry.get_device_by_id] at hd ⊢
      simp only [Registry.update_master_key_status, hd]
      exact alookup_ainsert_self _ _ _
    · simp [handleSutMessage]
  · intro msg d' hfalse hlook htrue
    cases msg with
    | heartbeat extra =>
      exfalso
      simp only [Registry.get_device_by_id] at hd hlook
      simp only [handleSutMessage, Registry.register_device, hd] at hlook
      rw [alookup_ainsert_self] at hlook
      cases hlook
      simp [hfalse] at htrue
    | statusUpdate extra =>
      exfalso
      simp only [handleSutMessage] at hlook
      rw [hd] at hlook
      cases hlook
      simp [hfalse] at htrue
    | masterKeyInstalled success error =>
      cases success with
      | false =>
        exfalso
        simp only [handleSutMessage, Bool.false_eq_true, if_false] at hlook
        rw [hd] at hlook
        cases hlook
        simp [hfalse] at htrue
      | true => exact ⟨error, rfl⟩
    | other tag =>
      exfalso
      simp only [handleSutMessage] at hlook
      rw [hd] at hlook
      cases hlook
      simp [hfalse] at htrue

/-- C5 witness: on a concrete record with the key not installed, a failure
report leaves the registry unchanged and acks the error; a success report
installs the key with the timestamp. -/
theorem c5_master_key_installed_transition_witness :
    (handleSutMessage ⟨[("A", mkDevice "A" "10.0.0.5" true false false)], [("10.0.0.5", "A")], []⟩
        "A" payloadNoIp 9 (SutMessage.masterKeyInstalled false (some "permission denied"))
      = (⟨[("A", mkDevice "A" "10.0.0.5" true false false)], [("10.0.0.5", "A")], []⟩,
         [WireMessage.masterKeyInstalledAck false (some "permission denied")])) ∧
    Registry.get_device_by_id
        (handleSutMessage ⟨[("A", mkDevice "A" "10.0.0.5" true false false)], [("10.0.0.5", "A")], []⟩
          "A" payloadNoIp 9 (SutMessage.masterKeyInstalled true none)).1 "A"
      = some { mkDevice "A" "10.0.0.5" true false false with
               master_key_installed := true, master_key_installed_at := some 9 } :=
  ⟨(c5_master_key_installed_transition
      ⟨[("A", mkDevice "A" "10.0.0.5" true false false)], [("10.0.0.5", "A")], []⟩
      "A" payloadNoIp 9 (mkDevice "A" "10.0.0.5" true false false) (by decide)).1
      (some "permission denied"),
   ((c5_master_key_installed_transition
      ⟨[("A", mkDevice "A" "10.0.0.5" true false false)], [("10.0.0.5", "A")], []⟩
      "A" payloadNoIp 9 (mkDevice "A" "10.0.0.5" true false false) (by decide)).2.1 none).1⟩

/-! ## Claim C7: master key pair is a lazy one-time initialization -/

/-- C7: if both key files already exist, `ensure_key_exists` returns
success and changes nothing; if the pair is absent and directory creation
and generation succeed, both files come into existence; and after any
successful call, every further call is a no-op returning success — the key
material is never regenerated or modified once present. -/
theorem c7_ensure_key_exists_lazy
    (fs : MasterKeyFS) (mkdirOk : Bool) (gen : GenOutcome)
    (mkdirOk' : Bool) (gen' : GenOutcome) :
    (fs.priv_key.isSome = true → fs.pub_key.isSome = true →
      ensure_key_exists fs mkdirOk gen = ((true, "Key already exists"), fs)) ∧
    (fs.priv_key.isSome = false → mkdirOk = true → ∀ p q, gen = GenOutcome.ok p q →
      (ensure_key_exists fs mkdirOk gen).2.priv_key.isSome = true ∧
      (ensure_key_exists fs mkdirOk gen).2.pub_key.isSome = true) ∧
    ((ensure_key_exists fs mkdirOk gen).1.1 = true →
      ensure_key_exists (ensure_key_exists fs mkdirOk gen).2 mkdirOk' gen' =
        ((true, "Key already exists"), (ensure_key_exists fs mkdirOk gen).2)) := by
  refine ⟨?_, ?_, ?_⟩
  · intro h1 h2
    simp [ensure_key_exists, h1, h2]
  · intro h1 h2 p q hgen
    subst hgen
    simp [ensure_key_exists, h1, h2]
  · intro hsucc
    by_cases hex : fs.priv_key.isSome && fs.pub_key.isSome
    · rw [show ensure_key_exists fs mkdirOk gen = ((true, "Key already exists"), fs) by
        simp [ensure_key_exists, hex]]
      simp [ensure_key_exists, hex]
    · cases hm : mkdirOk with
      | false =>
        exfalso
        simp [ensure_key_exists, hex, hm] at hsucc
      | true =>
        cases gen with
        | ok p q =>
          rw [show ensure_key_exists fs true (GenOutcome.ok p q) =
              ((true, "Generated new key"), { priv_key := some p, pub_key := some q }) by
            simp [ensure_key_exists, hex]]
          simp [ensure_key_exists]
        | fail m =>
          exfalso
          simp [ensure_key_exists, hex, hm] at hsucc

/-- C7 witness: from an empty filesystem a successful call generates the
pair, and the second call is a no-op success. -/
theorem c7_ensure_key_exists_lazy_witness :
    (ensure_key_exists ⟨some "PRIV", some "PUB"⟩ true (GenOutcome.fail "boom") =
      ((true, "Key already exists"), ⟨some "PRIV", some "PUB"⟩)) ∧
    (ensure_key_exists ⟨none, none⟩ true (GenOutcome.ok "P" "Q")).2.priv_key.isSome = true ∧
    (ensure_key_exists (ensure_key_exists ⟨none, none⟩ true (GenOutcome.ok "P" "Q")).2 false (GenOutcome.fail "x") =
      ((true, "Key already exists"), (ensure_key_exists ⟨none, none⟩ true (GenOutcome.ok "P" "Q")).2)) :=
  ⟨(c7_ensure_key_exists_lazy ⟨some "PRIV", some "PUB"⟩ true (GenOutcome.fail "boom") true (GenOutcome.fail "x")).1 rfl rfl,
   ((c7_ensure_key_exists_lazy ⟨none, none⟩ true (GenOutcome.ok "P" "Q") false (GenOutcome.fail "x")).2.1 rfl rfl "P" "Q" rfl).1,
   (c7_ensure_key_exists_lazy ⟨none, none⟩ true (GenOutcome.ok "P" "Q") false (GenOutcome.fail "x")).2.2 (by decide)⟩

/-! ## Claim C10: SSE fan-out isolates and prunes failed observers -/

/-- C10: one broadcast attempts a (non-blocking) enqueue on every
observer; the delivered set is exactly the observers whose enqueue
succeeded — a failure for one observer never prevents delivery to the
others — every observer whose enqueue failed is removed from the observer
set by that broadcast, and every successful one is retained. -/
theorem c10_broadcast_sse_isolation
    (clients : List Nat) (enqOk : Nat → Bool) (q : Nat) (hq : q ∈ clients) :
    (broadcast_sse_event clients enqOk).delivered = clients.filter (fun c => enqOk c) ∧
    (enqOk q = true → q ∈ (broadcast_sse_event clients enqOk).delivered ∧
      q ∈ (broadcast_sse_event clients enqOk).clients) ∧
    (enqOk q = false → q ∉ (broadcast_sse_event clients enqOk).clients) := by
  refine ⟨rfl, ?_, ?_⟩
  · intro hok
    constructor
    · simpa [broadcast_sse_event, List.mem_filter] using ⟨hq, hok⟩
    · simp only [broadcast_sse_event, List.mem_filter]
      refine ⟨hq, ?_⟩
      simp only [Bool.not_eq_true']
      rw [List.contains_eq_any_beq]
      simp only [List.any_eq_false]
      intro x hx
      rcases List.mem_filter.mp hx with ⟨-, hxf⟩
      intro hbeq
      have hqx : q = x := by simpa using hbeq
      subst hqx
      simp [hok] at hxf
  · intro hfail hmem
    simp only [broadcast_sse_event, List.mem_filter] at hmem
    rcases hmem with ⟨-, hnc⟩
    simp only [Bool.not_eq_true'] at hnc
    rw [List.contains_eq_any_beq] at hnc
    simp only [List.any_eq_false] at hnc
    have := hnc q (List.mem_filter.mpr ⟨hq, by simp [hfail]⟩)
    simp at this

/-! ## Claim C2: delete vs. the secondary ip index -/

/-- C2 counterexample: device `A` registers at `10.0.0.5`, then device `B`
registers at the same IP, so the index entry for `10.0.0.5` is owned by
`B`; administratively deleting `A` nevertheless removes that entry — `B`
stays in the primary map with stored ip `10.0.0.5` but the index no longer
resolves it.  This refutes the claim that deleting a device whose
recorded IP was reassigned never removes the other device's index
entry (`delete_sut` checks only presence of the key, not ownership). -/
theorem c2_delete_steals_entry_counterexample :
    alookup regAB.ip_to_id_mapping "10.0.0.5" = some "B" ∧
    (Registry.get_device_by_id (delete_sut regAB "A" false).2 "B").map DeviceRecord.ip
      = some "10.0.0.5" ∧
    alookup (delete_sut regAB "A" false).2.ip_to_id_mapping "10.0.0.5" = none := by
  refine ⟨?_, ?_, ?_⟩ <;> rfl

/-- C2 amended: after an administrative delete the index stays
forward-consistent — every remaining entry's IP maps to a record present
in the primary map whose stored ip is that IP — but the delete removes the
index entry at the deleted record's stored IP whenever one is present,
even when that entry is owned by a different `unique_id` (as the
counterexample shows). -/
theorem c2_delete_index_forward_consistency
    (reg : Registry) (unique_id : String) (force : Bool)
    (hcons : indexConsistentB reg = true) :
    indexConsistentB (delete_sut reg unique_id force).2 = true ∧
    (∀ d, Registry.get_device_by_id reg unique_id = some d →
      (d.is_paired && !force) = false →
      alookup (delete_sut reg unique_id force).2.ip_to_id_mapping d.ip = none) := by
  constructor
  · cases hd : Registry.get_device_by_id reg unique_id with
    | none =>
      simpa [delete_sut, hd] using hcons
    | some d =>
      by_cases hblock : (d.is_paired && !force) = true
      · simpa [delete_sut, hd, hblock] using hcons
      · simp only [delete_sut, hd, hblock, if_false, Bool.false_eq_true]
        simp only [indexConsistentB] at hcons ⊢
        rw [List.all_eq_true] at hcons ⊢
        intro p hp
        have hpmem : p ∈ reg.ip_to_id_mapping := by
          by_cases hc : (alookup reg.ip_to_id_mapping d.ip).isSome
          · simp only [hc, if_true] at hp
            exact List.mem_of_mem_filter hp
          · simpa [hc] using hp
        have hbase := hcons p hpmem
        by_cases hpu : p.2 = unique_id
        · exfalso
          simp only at hbase
          rw [hpu, show alookup reg.devices unique_id = some d from hd] at hbase
          have hdip : d.ip = p.1 := by simpa using hbase
          by_cases hc : (alookup reg.ip_to_id_mapping d.ip).isSome
          · simp only [hc, if_true] at hp
            have := (List.mem_filter.mp hp).2
            rw [← hdip] at this
            simp [aerase] at this
          · apply hc
            rw [hdip]
            have : p = (p.1, unique_id) := by
              cases p
              simp_all
            rw [this] at hpmem
            exact alookup_isSome_of_mem hpmem
        · simp only at hbase ⊢
          rw [show alookup (aerase reg.devices unique_id) p.2 = alookup reg.devices p.2 from
            alookup_aerase_ne _ _ _ hpu]
          exact hbase
  · intro d hd hblock
    simp only [delete_sut, hd, hblock, if_false, Bool.false_eq_true]
    by_cases hc : (alookup reg.ip_to_id_mapping d.ip).isSome
    · simp only [hc, if_true]
      exact alookup_aerase_self _ _
    · simp only [hc, if_false]
      simpa using hc

/-- C2 amended witness: in the reassigned-IP state, deleting `A` keeps the
index forward-consistent and removes the entry at `A`'s stored IP. -/
theorem c2_delete_index_forward_consistency_witness :
    indexConsistentB (delete_sut regAB "A" false).2 = true ∧
    alookup (delete_sut regAB "A" false).2.ip_to_id_mapping deviceA.ip = none :=
  ⟨(c2_delete_index_forward_consistency regAB "A" false (by decide)).1,
   (c2_delete_index_forward_consistency regAB "A" false (by decide)).2 deviceA
     (by decide) (by decide)⟩

/-! ## Claim C4: malformed registration payloads -/

/-- C4 counterexample: a registration payload with no `ip` field is not
refused — the handler defaults the ip to "unknown", registers the device
and sends a `register_ack`.  This refutes the claim that a payload missing
`ip` leads to transport refusal with no `DeviceRecord` created. -/
theorem c4_missing_ip_counterexample :
    ((websocketRegister Registry.empty "sut1" (some payloadNoIp) 5 1 false
        (MasterKeyFetch.completed none none)).2).isSome = true ∧
    (Registry.get_device_by_id
        (websocketRegister Registry.empty "sut1" (some payloadNoIp) 5 1 false
          (MasterKeyFetch.completed none none)).1
        "sut1").map DeviceRecord.ip = some "unknown" := by
  refine ⟨?_, ?_⟩ <;> rfl

/-- C4 amended: a payload that fails to parse as a JSON object refuses the
transport — no acknowledgment, and for a previously unknown `sut_id` no
record is created (the handler's cleanup path touches nothing) — while a
parsed payload missing the `ip` field is accepted: an acknowledgment is
sent and the device is registered with ip defaulted to "unknown",
whatever the master-key retrieval did (completed or raised into the
handler's `except`). -/
theorem c4_registration_refusal_amended
    (reg : Registry) (sut_id : String) (now fs : Nat) (ak : Bool)
    (fetch : MasterKeyFetch) (d : InitPayload)
    (hunk : Registry.get_device_by_id reg sut_id = none) (hip : d.ip = none) :
    websocketRegister reg sut_id none now fs ak fetch = (reg, none) ∧
    ((websocketRegister reg sut_id (some d) now fs ak fetch).2).isSome = true ∧
    (Registry.get_device_by_id
        (websocketRegister reg sut_id (some d) now fs ak fetch).1 sut_id).map
        DeviceRecord.ip = some "unknown" := by
  have hunk' : alookup reg.devices sut_id = none := hunk
  refine ⟨?_, ?_, ?_⟩
  · simp [websocketRegister, Registry.mark_device_offline, hunk']
  · cases fetch with
    | completed pub fp =>
      simp only [websocketRegister, Registry.register_device, hunk']
      rfl
    | raised pub =>
      simp only [websocketRegister, Registry.register_device, hunk']
      rfl
  · cases fetch with
    | completed pub fp =>
      simp only [websocketRegister, Registry.register_device, hunk',
        Registry.get_device_by_id]
      rw [alookup_ainsert_self]
      simp [hip]
    | raised pub =>
      simp only [websocketRegister, Registry.register_device, hunk',
        Registry.get_device_by_id]
      rw [alookup_ainsert_self]
      simp [hip]

/-- C4 amended witness: concrete malformed payload touches nothing; the
concrete no-ip payload registers with ip "unknown", even when the
master-key retrieval raised. -/
theorem c4_registration_refusal_amended_witness :
    websocketRegister Registry.empty "sut1" none 5 1 false
        (MasterKeyFetch.raised none)
      = (Registry.empty, none) ∧
    (Registry.get_device_by_id
        (websocketRegister Registry.empty "sut1" (some payloadNoIp) 5 1 false
          (MasterKeyFetch.raised none)).1
        "sut1").map DeviceRecord.ip = some "unknown" :=
  ⟨(c4_registration_refusal_amended Registry.empty "sut1" 5 1 false
      (MasterKeyFetch.raised none) payloadNoIp (by decide) (by decide)).1,
   (c4_registration_refusal_amended Registry.empty "sut1" 5 1 false
      (MasterKeyFetch.raised none) payloadNoIp (by decide) (by decide)).2.2⟩

/-! ## Claim C8: heartbeat is a pure freshness refresh -/

/-- C8: for a heartbeat from a registered online device whose record
matches its initial registration data — the invariant maintained along a
connection, since the handler re-registers with the original `init_data`
values — the only change to the record is `last_seen := now`: identity,
presentation, capability, pairing, trust, session and binding fields are
untouched, a single `heartbeat_ack` is sent, other devices' records are
untouched, and any heartbeat payload beyond the type tag is ignored (the
result does not depend on it). -/
theorem c8_heartbeat_frame
    (reg : Registry) (sut_id : String) (init : InitPayload) (now : Nat)
    (old : DeviceRecord) (extra : List (String × String))
    (h : Registry.get_device_by_id reg sut_id = some old)
    (hip : old.ip = init.ip.getD "unknown") (hport : old.port = init.port.getD 8080)
    (hcap : old.capabilities = init.capabilities.getD [])
    (hhost : old.hostname = init.hostname.getD "")
    (honline : old.is_online = true) :
    Registry.get_device_by_id
        (handleSutMessage reg sut_id init now (SutMessage.heartbeat extra)).1 sut_id
      = some { old with last_seen := now } ∧
    (handleSutMessage reg sut_id init now (SutMessage.heartbeat extra)).2
      = [WireMessage.heartbeatAck] ∧
    (∀ extra', handleSutMessage reg sut_id init now (SutMessage.heartbeat extra')
      = handleSutMessage reg sut_id init now (SutMessage.heartbeat extra)) ∧
    (∀ oid, oid ≠ sut_id →
      Registry.get_device_by_id
          (handleSutMessage reg sut_id init now (SutMessage.heartbeat extra)).1 oid
        = Registry.get_device_by_id reg oid) := by
  simp only [Registry.get_device_by_id] at h
  have hrec : (Registry.register_device reg now (init.ip.getD "unknown")
      (init.port.getD 8080) sut_id (init.capabilities.getD [])
      (init.hostname.getD "") none none none none none)
      = ({ reg with devices := ainsert reg.devices sut_id { old with last_seen := now }
                    ip_to_id_mapping := reg.ip_to_id_mapping },
         { old with last_seen := now }) := by
    simp only [Registry.register_device, h, ← hip, ← hport, ← hcap, ← hhost]
    obtain ⟨uid, oip, oprt, ohst, ocpu, odn, ocap, oon, ols, opr, opb, opa,
      osid, olic, obh, ospk, osfp, omki, omkia⟩ := old
    simp only [DeviceRecord.ip] at *
    subst honline
    simp [mergeOpt]
  refine ⟨?_, rfl, ?_, ?_⟩
  · simp only [handleSutMessage, hrec, Registry.get_device_by_id]
    exact alookup_ainsert_self _ _ _
  · intro extra'
    rfl
  · intro oid hne
    simp only [handleSutMessage, hrec, Registry.get_device_by_id]
    exact alookup_ainsert_ne _ _ _ _ hne

/-- C8 witness: a concrete online device heartbeating with a non-empty
extra payload only refreshes `last_seen`. -/
theorem c8_heartbeat_frame_witness :
    Registry.get_device_by_id
        (handleSutMessage
          ⟨[("A", { mkDevice "A" "unknown" true false false with hostname := "", port := 9 })], [("unknown", "A")], []⟩
          "A" payloadNoIp 7 (SutMessage.heartbeat [("junk", "x")])).1 "A"
      = some { mkDevice "A" "unknown" true false false with hostname := "", port := 9, last_seen := 7 } ∧
    (handleSutMessage
        ⟨[("A", { mkDevice "A" "unknown" true false false with hostname := "", port := 9 })], [("unknown", "A")], []⟩
        "A" payloadNoIp 7 (SutMessage.heartbeat [("junk", "x")])).2
      = [WireMessage.heartbeatAck] := by
  have happ := c8_heartbeat_frame
    ⟨[("A", { mkDevice "A" "unknown" true false false with hostname := "", port := 9 })], [("unknown", "A")], []⟩
    "A" payloadNoIp 7
    ({ mkDevice "A" "unknown" true false false with hostname := "", port := 9 })
    [("junk", "x")] (by decide) (by decide) (by decide) (by decide) (by decide) (by decide)
  exact ⟨happ.1, happ.2.1⟩

/-! ## Claim C9: delete refuses paired devices unless forced -/

/-- C9: deleting an unknown id fails NotFound with no side effect; an
unforced delete of a paired device is refused (Conflict-class 400) with
the registry untouched; a forced delete of a paired device removes the
record from the primary map, leaves no secondary-index entry pointing at
it (given forward index consistency), and rewrites the durable
paired-device list from the post-delete map. -/
theorem c9_delete_paired_guard
    (reg : Registry) (unique_id : String) (d : DeviceRecord)
    (hidx : indexConsistentB reg = true) :
    (Registry.get_device_by_id reg unique_id = none →
      ∀ force, delete_sut reg unique_id force = (DeleteOutcome.notFound, reg)) ∧
    (Registry.get_device_by_id reg unique_id = some d → d.is_paired = true →
      delete_sut reg unique_id false = (DeleteOutcome.conflict, reg) ∧
      (delete_sut reg unique_id true).1 = DeleteOutcome.ok true ∧
      Registry.get_device_by_id (delete_sut reg unique_id true).2 unique_id = none ∧
      (∀ ip, alookup (delete_sut reg unique_id true).2.ip_to_id_mapping ip ≠ some unique_id) ∧
      (delete_sut reg unique_id true).2.saved_paired
        = pairedIds (delete_sut reg unique_id true).2.devices) := by
  constructor
  · intro hnone force
    simp [delete_sut, hnone]
  · intro hd hp
    refine ⟨?_, ?_, ?_, ?_, ?_⟩
    · simp [delete_sut, hd, hp]
    · simp [delete_sut, hd, hp]
    · simp only [delete_sut, hd, hp, Bool.and_false, Bool.not_true, if_neg]
      simp only [Registry.get_device_by_id]
      exact alookup_aerase_self _ _
    · intro ip hlk
      simp only [indexConsistentB] at hidx
      rw [List.all_eq_true] at hidx
      simp only [delete_sut, hd, hp, Bool.and_false, Bool.not_true] at hlk
      by_cases hc : (alookup reg.ip_to_id_mapping d.ip).isSome
      · simp only [hc, if_true] at hlk
        have hmem := alookup_mem hlk
        have hne : ip ≠ d.ip := by
          have := (List.mem_filter.mp hmem).2
          simpa [aerase] using this
        have hmem' : (ip, unique_id) ∈ reg.ip_to_id_mapping :=
          List.mem_of_mem_filter hmem
        have := hidx _ hmem'
        simp only at this
        rw [show alookup reg.devices unique_id = some d from hd] at this
        have hips : d.ip = ip := by simpa using this
        exact hne hips.symm
      · simp only [hc, if_false] at hlk
        have hmem := alookup_mem hlk
        have := hidx _ hmem
        simp only at this
        rw [show alookup reg.devices unique_id = some d from hd] at this
        have hip : d.ip = ip := by simpa using this
        subst hip
        exact hc (alookup_isSome_of_mem hmem)
    · simp [delete_sut, hd, hp]

/-- C9 witness: a concrete paired device is protected from unforced
delete, removed by forced delete with the durable set rewritten; an
unknown id yields NotFound. -/
theorem c9_delete_paired_guard_witness :
    (delete_sut ⟨[("P", mkDevice "P" "10.0.0.9" false true true)], [("10.0.0.9", "P")], ["P"]⟩ "P" false
      = (DeleteOutcome.conflict, ⟨[("P", mkDevice "P" "10.0.0.9" false true true)], [("10.0.0.9", "P")], ["P"]⟩)) ∧
    Registry.get_device_by_id
      (delete_sut ⟨[("P", mkDevice "P" "10.0.0.9" false true true)], [("10.0.0.9", "P")], ["P"]⟩ "P" true).2 "P" = none ∧
    (delete_sut ⟨[("P", mkDevice "P" "10.0.0.9" false true true)], [("10.0.0.9", "P")], ["P"]⟩ "P" true).2.saved_paired
      = pairedIds (delete_sut ⟨[("P", mkDevice "P" "10.0.0.9" false true true)], [("10.0.0.9", "P")], ["P"]⟩ "P" true).2.devices ∧
    (delete_sut ⟨[("P", mkDevice "P" "10.0.0.9" false true true)], [("10.0.0.9", "P")], ["P"]⟩ "Z" false
      = (DeleteOutcome.notFound, ⟨[("P", mkDevice "P" "10.0.0.9" false true true)], [("10.0.0.9", "P")], ["P"]⟩)) := by
  have happ := c9_delete_paired_guard
    ⟨[("P", mkDevice "P" "10.0.0.9" false true true)], [("10.0.0.9", "P")], ["P"]⟩
    "P" (mkDevice "P" "10.0.0.9" false true true) (by decide)
  have hsome := happ.2 (by decide) (by decide)
  have happZ := c9_delete_paired_guard
    ⟨[("P", mkDevice "P" "10.0.0.9" false true true)], [("10.0.0.9", "P")], ["P"]⟩
    "Z" (mkDevice "P" "10.0.0.9" false true true) (by decide)
  exact ⟨hsome.1, hsome.2.2.1, hsome.2.2.2.2, happZ.1 (by decide) false⟩

/-! ## Line and token lemmas for the authorized_keys model -/

theorem splitLines_ne_nil (a : List Char) : splitLines a ≠ [] := by
  induction a with
  | nil => simp [splitLines]
  | cons c rest ih =>
    by_cases hc : c = '\n'
    · simp [splitLines, hc]
    · simp only [splitLines, if_neg hc]
      cases h : splitLines rest with
      | nil => simp
      | cons x t => simp

theorem splitLines_append_newline (a b : List Char) :
    splitLines (a ++ '\n' :: b) = splitLines a ++ splitLines b := by
  induction a with
  | nil => simp [splitLines]
  | cons c a' ih =>
    by_cases hc : c = '\n'
    · simp [splitLines, hc, ih]
    · simp only [List.cons_append, splitLines, if_neg hc]
      rw [show splitLines (a'.append ('\n' :: b)) = splitLines a' ++ splitLines b from ih]
      cases h : splitLines a' with
      | nil => exact absurd h (splitLines_ne_nil a')
      | cons x t => simp [h]

theorem splitLines_no_newline (a : List Char) (h : '\n' ∉ a) :
    splitLines a = [a] := by
  induction a with
  | nil => rfl
  | cons c a' ih =>
    have hc : c ≠ '\n' := fun hcc => h (hcc ▸ List.mem_cons_self _ _)
    have ha' : '\n' ∉ a' := fun hm => h (List.mem_cons_of_mem _ hm)
    simp [splitLines, hc, ih ha']

theorem splitLines_head_isPrefix (a h : List Char) (t : List (List Char))
    (heq : splitLines a = h :: t) : h <+: a := by
  induction a generalizing h t with
  | nil =>
    simp [splitLines] at heq
    simp [heq.1]
  | cons c a' ih =>
    by_cases hc : c = '\n'
    · simp [splitLines, hc] at heq
      simp [heq.1]
    · simp only [splitLines, if_neg hc] at heq
      cases hs : splitLines a' with
      | nil => exact absurd hs (splitLines_ne_nil a')
      | cons x s =>
        rw [hs] at heq
        injection heq with h1 h2
        subst h1
        exact List.cons_prefix_cons.mpr ⟨rfl, ih x s hs⟩

theorem mem_splitLines_isInfix (a l : List Char) (h : l ∈ splitLines a) :
    l <:+: a := by
  induction a generalizing l with
  | nil =>
    simp [splitLines] at h
    simp [h]
  | cons c a' ih =>
    by_cases hc : c = '\n'
    · simp only [splitLines, if_pos hc] at h
      rcases List.mem_cons.mp h with h | h
      · simp [h]
      · exact List.infix_cons (ih l h)
    · simp only [splitLines, if_neg hc] at h
      cases hs : splitLines a' with
      | nil => exact absurd hs (splitLines_ne_nil a')
      | cons x s =>
        rw [hs] at h
        rcases List.mem_cons.mp h with h | h
        · subst h
          exact (List.cons_prefix_cons.mpr
            ⟨rfl, splitLines_head_isPrefix a' x s hs⟩).isInfix
        · exact List.infix_cons (ih l (hs ▸ List.mem_cons_of_mem _ h))

theorem mem_splitWsAux (l : List Char) : ∀ acc t, t ∈ splitWsAux l acc →
    t <:+: acc.reverse ++ l ∧ t ≠ [] := by
  induction l with
  | nil =>
    intro acc t h
    by_cases ha : acc = []
    · simp [splitWsAux, ha] at h
    · simp only [splitWsAux, if_neg ha, List.mem_singleton] at h
      subst h
      refine ⟨?_, by simpa using ha⟩
      rw [List.append_nil]
  | cons c rest ih =>
    intro acc t h
    by_cases hw : isWs c
    · by_cases ha : acc = []
      · rw [show splitWsAux (c :: rest) acc = splitWsAux rest [] by
          simp [splitWsAux, hw, ha]] at h
        rcases ih [] t h with ⟨hi, hne⟩
        subst ha
        simp only [List.reverse_nil, List.nil_append] at hi ⊢
        exact ⟨List.infix_cons hi, hne⟩
      · rw [show splitWsAux (c :: rest) acc = acc.reverse :: splitWsAux rest [] by
          simp [splitWsAux, hw, ha]] at h
        rcases List.mem_cons.mp h with h | h
        · subst h
          exact ⟨(List.prefix_append _ _).isInfix, by simpa using ha⟩
        · rcases ih [] t h with ⟨hi, hne⟩
          simp only [List.reverse_nil, List.nil_append] at hi
          have hsuf : rest <:+ acc.reverse ++ c :: rest := ⟨acc.reverse ++ [c], by simp⟩
          exact ⟨hi.trans hsuf.isInfix, hne⟩
    · rw [show splitWsAux (c :: rest) acc = splitWsAux rest (c :: acc) by
        simp [splitWsAux, hw]] at h
      rcases ih (c :: acc) t h with ⟨hi, hne⟩
      refine ⟨?_, hne⟩
      simpa [List.reverse_cons, List.append_assoc] using hi

theorem mem_splitWs_isInfix (l t : List Char) (h : t ∈ splitWs l) :
    t <:+: l ∧ t ≠ [] := by
  have := mem_splitWsAux l [] t h
  simpa using this

theorem keyData_isInfix (key : List Char) : keyData key <:+: key := by
  unfold keyData
  cases hs : splitWs key with
  | nil => exact List.infix_rfl
  | cons a s =>
    cases s with
    | nil => exact List.infix_rfl
    | cons d s' =>
      exact (mem_splitWs_isInfix key d
        (hs ▸ List.mem_cons_of_mem _ (List.mem_cons_self _ _))).1

theorem keyData_ne_nil (key : List Char) (h : key ≠ []) : keyData key ≠ [] := by
  unfold keyData
  cases hs : splitWs key with
  | nil => exact h
  | cons a s =>
    cases s with
    | nil => exact h
    | cons d s' =>
      exact (mem_splitWs_isInfix key d
        (hs ▸ List.mem_cons_of_mem _ (List.mem_cons_self _ _))).2

theorem containsSub_iff (n h : List Char) : containsSub n h = true ↔ n <:+: h :=
  decide_eq_true_iff

theorem countP_splitLines_zero (d c0 : List Char) (hnot : ¬ d <:+: c0) :
    (splitLines c0).countP (fun l => containsSub d l) = 0 := by
  rw [List.countP_eq_zero]
  intro l hl
  simp only [Bool.not_eq_true]
  rw [← Bool.not_eq_true, containsSub_iff]
  intro hdl
  exact hnot (hdl.trans (mem_splitLines_isInfix c0 l hl))

theorem countMatching_final_line (c0 key d : List Char) (hnl : '\n' ∉ key)
    (hd : d <:+: key) (hdn : d ≠ []) (hnot : ¬ d <:+: c0) :
    countMatching d (c0 ++ '\n' :: (key ++ ['\n'])) = 1 := by
  unfold countMatching
  rw [splitLines_append_newline]
  rw [show key ++ ['\n'] = key ++ '\n' :: [] from rfl]
  rw [splitLines_append_newline]
  rw [splitLines_no_newline key hnl]
  simp only [List.countP_append, countP_splitLines_zero d c0 hnot]
  have h1 : containsSub d key = true := (containsSub_iff _ _).mpr hd
  have h2 : containsSub d [] = false := by
    rw [← Bool.not_eq_true, containsSub_iff]
    intro hc
    exact hdn (List.infix_nil.mp hc)
  simp [splitLines, List.countP_cons, h1, h2]

theorem countMatching_single_line (key d : List Char) (hnl : '\n' ∉ key)
    (hd : d <:+: key) (hdn : d ≠ []) : countMatching d (key ++ ['\n']) = 1 := by
  unfold countMatching
  rw [show key ++ ['\n'] = key ++ '\n' :: [] from rfl, splitLines_append_newline,
    splitLines_no_newline key hnl]
  have h1 : containsSub d key = true := (containsSub_iff _ _).mpr hd
  have h2 : containsSub d [] = false := by
    rw [← Bool.not_eq_true, containsSub_iff]
    intro hc
    exact hdn (List.infix_nil.mp hc)
  simp [splitLines, List.countP_cons, h1, h2]

theorem add_authorized_key_appends (fs : AuthKeysFile) (pk : List Char)
    (h1 : stripChars pk ≠ [])
    (h2 : ("ssh-".toList.isPrefixOf (stripChars pk)
      || "ecdsa-".toList.isPrefixOf (stripChars pk)) = true)
    (h4 : ¬ keyData (stripChars pk) <:+: fs.content.getD []) :
    add_authorized_key fs pk = ((true, "Key added successfully"),
      ⟨some (fs.content.getD []
        ++ (if fs.content.getD [] ≠ [] ∧ (fs.content.getD []).getLast? ≠ some '\n'
            then ['\n'] else [])
        ++ stripChars pk ++ ['\n'])⟩) := by
  have hb : (!("ssh-".toList.isPrefixOf (stripChars pk)
      || "ecdsa-".toList.isPrefixOf (stripChars pk))) = false := by
    rw [h2]
    rfl
  obtain ⟨c⟩ := fs
  cases c with
  | none =>
    unfold add_authorized_key
    rw [if_neg h1, if_neg (by rw [hb]; decide)]
    rfl
  | some ex =>
    have hcs : containsSub (keyData (stripChars pk)) ex = false := by
      rw [← Bool.not_eq_true, containsSub_iff]
      intro hinf
      apply h4
      simpa using hinf
    unfold add_authorized_key
    rw [if_neg h1, if_neg (by rw [hb]; decide)]
    have hm : (match (some ex : Option (List Char)) with
        | some existing => containsSub (keyData (stripChars pk)) existing
        | none => false) = false := hcs
    rw [if_neg (by rw [hm]; decide)]

theorem add_authorized_key_already (fs : AuthKeysFile) (pk ex : List Char)
    (h1 : stripChars pk ≠ [])
    (h2 : ("ssh-".toList.isPrefixOf (stripChars pk)
      || "ecdsa-".toList.isPrefixOf (stripChars pk)) = true)
    (hfc : fs.content = some ex)
    (hin : keyData (stripChars pk) <:+: ex) :
    add_authorized_key fs pk = ((true, "Key already registered"), fs) := by
  have hb : (!("ssh-".toList.isPrefixOf (stripChars pk)
      || "ecdsa-".toList.isPrefixOf (stripChars pk))) = false := by
    rw [h2]
    rfl
  have hcs : containsSub (keyData (stripChars pk)) ex = true :=
    (containsSub_iff _ _).mpr hin
  obtain ⟨c⟩ := fs
  simp only [AuthKeysFile.mk.injEq] at hfc
  subst hfc
  unfold add_authorized_key
  rw [if_neg h1, if_neg (by rw [hb]; decide)]
  have hm : (match (some ex : Option (List Char)) with
      | some existing => containsSub (keyData (stripChars pk)) existing
      | none => false) = true := hcs
  rw [if_pos hm]

/-! ## Claim C6: authorized_keys add — validation and idempotence -/

/-- C6: `add_authorized_key` rejects empty (or whitespace-only) input and
input whose stripped form lacks an `ssh-`/`ecdsa-` key-type prefix,
leaving the store untouched; and for a valid single-line key whose data
portion is not yet in the store, the first call succeeds by appending one
entry, a second call with identical key material succeeds without writing
("already registered"), and the final store holds exactly one line
containing that key data (the store held none before). -/
theorem c6_add_authorized_key_idempotent (fs : AuthKeysFile) (pk : List Char) :
    (stripChars pk = [] →
      add_authorized_key fs pk = ((false, "Empty public key"), fs)) ∧
    (stripChars pk ≠ [] →
      ("ssh-".toList.isPrefixOf (stripChars pk)
        || "ecdsa-".toList.isPrefixOf (stripChars pk)) = false →
      add_authorized_key fs pk = ((false, "Invalid public key format"), fs)) ∧
    (stripChars pk ≠ [] →
      ("ssh-".toList.isPrefixOf (stripChars pk)
        || "ecdsa-".toList.isPrefixOf (stripChars pk)) = true →
      '\n' ∉ stripChars pk →
      ¬ keyData (stripChars pk) <:+: fs.content.getD [] →
      (add_authorized_key fs pk).1 = (true, "Key added successfully") ∧
      add_authorized_key (add_authorized_key fs pk).2 pk
        = ((true, "Key already registered"), (add_authorized_key fs pk).2) ∧
      countMatching (keyData (stripChars pk)) (fs.content.getD []) = 0 ∧
      countMatching (keyData (stripChars pk))
        ((add_authorized_key fs pk).2.content.getD []) = 1) := by
  refine ⟨?_, ?_, ?_⟩
  · intro h
    unfold add_authorized_key
    rw [if_pos h]
  · intro h1 h2
    have hb : (!("ssh-".toList.isPrefixOf (stripChars pk)
        || "ecdsa-".toList.isPrefixOf (stripChars pk))) = true := by
      rw [h2]
      rfl
    unfold add_authorized_key
    rw [if_neg h1, if_pos hb]
  · intro h1 h2 h3 h4
    have hdinf : keyData (stripChars pk) <:+: stripChars pk := keyData_isInfix _
    have hdne : keyData (stripChars pk) ≠ [] := keyData_ne_nil _ h1
    have hadd := add_authorized_key_appends fs pk h1 h2 h4
    refine ⟨by rw [hadd], ?_, ?_, ?_⟩
    · rw [hadd]
      apply add_authorized_key_already _ pk
        (fs.content.getD []
          ++ (if fs.content.getD [] ≠ [] ∧ (fs.content.getD []).getLast? ≠ some '\n'
              then ['\n'] else [])
          ++ stripChars pk ++ ['\n']) h1 h2 rfl
      refine hdinf.trans ?_
      refine ⟨fs.content.getD []
          ++ (if fs.content.getD [] ≠ [] ∧ (fs.content.getD []).getLast? ≠ some '\n'
              then ['\n'] else []), ['\n'], ?_⟩
      simp
    · unfold countMatching
      exact countP_splitLines_zero _ _ h4
    · rw [hadd]
      show countMatching (keyData (stripChars pk))
        (fs.content.getD []
          ++ (if fs.content.getD [] ≠ [] ∧ (fs.content.getD []).getLast? ≠ some '\n'
              then ['\n'] else [])
          ++ stripChars pk ++ ['\n']) = 1
      by_cases hpad : fs.content.getD [] ≠ [] ∧ (fs.content.getD []).getLast? ≠ some '\n'
      · rw [if_pos hpad]
        rw [show fs.content.getD [] ++ ['\n'] ++ stripChars pk ++ ['\n']
            = fs.content.getD [] ++ '\n' :: (stripChars pk ++ ['\n']) by simp]
        exact countMatching_final_line _ _ _ h3 hdinf hdne h4
      · rw [if_neg hpad]
        push_neg at hpad
        by_cases hex : fs.content.getD [] = []
        · rw [hex]
          exact countMatching_single_line _ _ h3 hdinf hdne
        · have hlast : (fs.content.getD []).getLast? = some '\n' := hpad hex
          rcases List.getLast?_eq_some_iff.mp hlast with ⟨e', he'⟩
          rw [he']
          rw [show (e' ++ ['\n']) ++ [] ++ stripChars pk ++ ['\n']
              = e' ++ '\n' :: (stripChars pk ++ ['\n']) by simp]
          apply countMatching_final_line _ _ _ h3 hdinf hdne
          intro hc
          apply h4
          rw [he']
          exact hc.trans (List.prefix_append e' ['\n']).isInfix

/-- C6 witness: a concrete ed25519 key added twice to an initially absent
store — both calls succeed, one stored entry results; the empty string and
a key with an unrecognized prefix are rejected. -/
theorem c6_add_authorized_key_idempotent_witness :
    (add_authorized_key ⟨none⟩ "ssh-ed25519 AAAAC3Nza master".toList).1
      = (true, "Key added successfully") ∧
    add_authorized_key (add_authorized_key ⟨none⟩ "ssh-ed25519 AAAAC3Nza master".toList).2
        "ssh-ed25519 AAAAC3Nza master".toList
      = ((true, "Key already registered"),
         (add_authorized_key ⟨none⟩ "ssh-ed25519 AAAAC3Nza master".toList).2) ∧
    countMatching (keyData (stripChars "ssh-ed25519 AAAAC3Nza master".toList))
        ((add_authorized_key ⟨none⟩ "ssh-ed25519 AAAAC3Nza master".toList).2.content.getD [])
      = 1 ∧
    add_authorized_key ⟨none⟩ "".toList = ((false, "Empty public key"), ⟨none⟩) ∧
    add_authorized_key ⟨none⟩ "rsa-key AAAA".toList
      = ((false, "Invalid public key format"), ⟨none⟩) := by
  have happ := c6_add_authorized_key_idempotent (⟨none⟩ : AuthKeysFile)
    "ssh-ed25519 AAAAC3Nza master".toList
  have hmain := happ.2.2 (by decide) (by decide) (by decide) (by decide)
  refine ⟨hmain.1, hmain.2.1, hmain.2.2.2, ?_, ?_⟩
  · exact (c6_add_authorized_key_idempotent ⟨none⟩ "".toList).1 (by decide)
  · exact (c6_add_authorized_key_idempotent ⟨none⟩ "rsa-key AAAA".toList).2.1
      (by decide) (by decide)

/-- C10 witness: with observers 1,2,3 where only 2 fails, 1 and 3 are
delivered to and retained, 2 is removed. -/
theorem c10_broadcast_sse_isolation_witness :
    (broadcast_sse_event [1, 2, 3] (fun q => q ≠ 2)).delivered = [1, 3] ∧
    (1 ∈ (broadcast_sse_event [1, 2, 3] (fun q => q ≠ 2)).clients) ∧
    (2 ∉ (broadcast_sse_event [1, 2, 3] (fun q => q ≠ 2)).clients) :=
  ⟨by decide,
   ((c10_broadcast_sse_isolation [1, 2, 3] (fun q => q ≠ 2) 1 (by decide)).2.1 (by decide)).2,
   (c10_broadcast_sse_isolation [1, 2, 3] (fun q => q ≠ 2) 2 (by decide)).2.2 (by decide)⟩

end RPX
